import Mathlib

/-!
Verification of the IX3 Touch Panel Controller command-correlation engine
(`microscope/controllers/olympus_ix3tpc.py`).

The development shallowly embeds the command record, the command table, key
allocation, command submission, the completion callback, the blocking poll
loop, controller initialisation and the light-source device operations, and
proves the specified properties about them.

Modelling conventions:
- Python byte buffers are `List Nat` with values reduced modulo 256 where the
  source writes through a signed `c_byte` store.
- Python callables (completion handlers) are represented by opaque-identifier
  naturals; an invocation of a handler is recorded as a `CallbackEvent` value
  rather than executed, so "the handler was invoked exactly once with these
  arguments" becomes a statement about the produced event list.
- The proprietary PortManager library is a collaborator: its return values
  (`MSL_PM_Initialize` status, `MSL_PM_EnumInterface` count, open / register /
  send success booleans) are parameters of the embedded functions.
- A raised Python exception is an `Except.error`; returning normally is
  `Except.ok`.
-/

/-! ## Command record (`_MDK_MSL_CMD`) -/

/-- Sizes fixed by the `_MDK_MSL_CMD` ctypes structure. -/
def SZ_SMALL : Nat := 8

def MAX_TAG_SIZE : Nat := 32

def MAX_COMMAND_SIZE : Nat := 256

def MAX_RESPONSE_SIZE : Nat := 256

/-- `ctypes.sizeof(ctypes.c_void_p) * 8` on the 64-bit platform the driver
targets. -/
def POINTER_SIZE_BITS : Nat := 64

/-- `2 ** pointer_size_bits`: the exclusive upper bound of the key scan in
`send_command`. -/
def KEY_BOUND : Nat := 2 ^ POINTER_SIZE_BITS

/-- `CommandStatus` enumeration: `WAIT = 0`, `SUCCESS = 1`, `TIMEOUT = 2`. -/
inductive CommandStatus
  | WAIT
  | SUCCESS
  | TIMEOUT
deriving DecidableEq, Repr

/-- The `_MDK_MSL_CMD` ctypes structure.  Unsigned C integers become `Nat`,
signed ones become `Int`, `c_void_p` fields become `Nat` (a pointer value,
`NULL` being `0`), byte arrays become `List Nat`. -/
structure MDK_MSL_CMD where
  m_Signature : Nat := 0
  m_Type : Int := 0
  m_Sequence : Nat := 0
  m_From : List Nat := List.replicate SZ_SMALL 0
  m_To : List Nat := List.replicate SZ_SMALL 0
  m_Status : Int := 0
  m_Result : Nat := 0
  m_Sync : Int := 0
  m_Command : Int := 0
  m_SendOnly : Int := 0
  m_StartTime : Int := 0
  m_FinishTime : Int := 0
  m_Timeout : Nat := 0
  m_Callback : Nat := 0
  m_Event : Nat := 0
  m_Context : Nat := 0
  m_TimerID : Nat := 0
  m_PortContext : Nat := 0
  m_Ext1 : Nat := 0
  m_Ext2 : Nat := 0
  m_Ext3 : Nat := 0
  m_lExt1 : Int := 0
  m_lExt2 : Int := 0
  m_TagSize : Nat := 0
  m_CmdTag : List Nat := List.replicate MAX_TAG_SIZE 0
  m_CmdSize : Nat := 0
  m_Cmd : List Nat := List.replicate MAX_COMMAND_SIZE 0
  m_RspSize : Nat := 0
  m_Rsp : List Nat := List.replicate MAX_RESPONSE_SIZE 0
deriving DecidableEq, Repr

/-! ## Command table (`_CommandTableEntry` and the `dict` it lives in) -/

/-- `_CommandTableEntry`.  The Python callable is an opaque identifier and the
callback arguments are opaque values, both `Nat`. -/
structure CommandTableEntry where
  status : CommandStatus
  data : MDK_MSL_CMD
  callback : Option Nat := none
  callback_args : List Nat := []
deriving DecidableEq, Repr

/-- The `dict` `self._command_table`, as an association list whose keys are
unique for every table produced by the embedded operations. -/
abbrev CommandTable := List (Nat × CommandTableEntry)

/-- The key set of the table (`self._command_table.keys()`). -/
def tableKeys (t : CommandTable) : List Nat := t.map Prod.fst

/-- Python `table[key]` read access (`None` when the key is missing, in which
case the source would raise `KeyError`). -/
def tableLookup : CommandTable → Nat → Option CommandTableEntry
  | [], _ => none
  | (k0, e0) :: rest, k => if k0 = k then some e0 else tableLookup rest k

/-- Python `table[key] = entry`: replace the binding in place when the key is
present, append a new binding otherwise. -/
def tableInsert : CommandTable → Nat → CommandTableEntry → CommandTable
  | [], k, e => [(k, e)]
  | (k0, e0) :: rest, k, e =>
    if k0 = k then (k, e) :: rest else (k0, e0) :: tableInsert rest k e

/-- Python `del table[key]`. -/
def tableErase : CommandTable → Nat → CommandTable
  | [], _ => []
  | (k0, e0) :: rest, k =>
    if k0 = k then tableErase rest k else (k0, e0) :: tableErase rest k

/-! ## Key allocation (`send_command`, lines 379-386) -/

/-- The scan `for i in range(i0, bound): if i not in keys: key = i; break`,
returning `some key` when the loop breaks and `none` when it runs out. -/
def findFreeKey (keys : List Nat) (bound i : Nat) : Option Nat :=
  if _h : i < bound then
    if i ∈ keys then findFreeKey keys bound (i + 1) else some i
  else none
termination_by bound - i

/-- Key allocation in `send_command`: `key = 0`, then the scan over
`range(0, 2 ** pointer_size_bits)`; if the loop never breaks, `key` keeps its
initial value `0`. -/
def allocateKey (t : CommandTable) : Nat :=
  (findFreeKey (tableKeys t) KEY_BOUND 0).getD 0

/-! ## Command submission (`send_command`, lines 359-416) -/

/-- `IX3TPC._COMMAND_TERMINATOR`. -/
def COMMAND_TERMINATOR : String := "\r\n"

/-- The failure raised while building the oversized command record: the ctypes
fixed-size array constructor rejects a longer-than-capacity value list.  The
specification calls this condition PayloadTooLarge. -/
inductive SendError
  | payloadTooLarge
deriving DecidableEq, Repr

/-- `(ctypes.c_byte * cap)(*xs)`: fails when there are more values than the
capacity, zero-pads the remainder otherwise. -/
def fixedByteArray (cap : Nat) (xs : List Nat) : Option (List Nat) :=
  if xs.length ≤ cap then some (xs ++ List.replicate (cap - xs.length) 0) else none

/-- `[ord(x) for x in cmd + self._COMMAND_TERMINATOR]` as stored through the
signed byte array (values reduced modulo 256). -/
def commandBytes (cmd : String) : List Nat :=
  (cmd ++ COMMAND_TERMINATOR).data.map (fun ch => ch.toNat % 256)

/-- The `_CommandTableEntry` built by `send_command`: status `WAIT`, a record
carrying the command bytes, the key in `m_Callback`, the timeout, and
`m_Command=True`.  (`m_Context` holds `id(self._command_table)` in the source;
the embedding passes the table to the callback adapter explicitly, so the
field is left `0`.) -/
def sentEntry (cmd : String) (key : Nat) (callback : Option Nat)
    (callback_args : List Nat) (timeout_ms : Nat) (bytes : List Nat) :
    CommandTableEntry :=
  { status := CommandStatus.WAIT
    data := { m_CmdSize := cmd.length + COMMAND_TERMINATOR.length
              m_Cmd := bytes
              m_Callback := key
              m_Context := 0
              m_Timeout := timeout_ms
              m_Command := 1 }
    callback := callback
    callback_args := callback_args }

/-- The observable outcome of `send_command`: the updated table, the key that
was used, and whether the `MSL_PM_SendCommand` failure branch logged an
error. -/
structure SendResult where
  table : CommandTable
  key : Nat
  logged_error : Bool
deriving DecidableEq, Repr

/-- `IX3TPC.send_command`.  `pmsc_success` is the boolean returned by
`MSL_PM_SendCommand`; a `False` return is logged, not raised, and the entry is
left in the table untouched. -/
def send_command (table : CommandTable) (cmd : String) (callback : Option Nat)
    (callback_args : List Nat) (timeout_ms : Nat) (pmsc_success : Bool) :
    Except SendError SendResult :=
  let key := allocateKey table
  match fixedByteArray MAX_COMMAND_SIZE (commandBytes cmd) with
  | none => Except.error SendError.payloadTooLarge
  | some bytes =>
    Except.ok
      { table := tableInsert table key
          (sentEntry cmd key callback callback_args timeout_ms bytes)
        key := key
        logged_error := !pmsc_success }

/-! ## Callback adapter (`_callback_command`, lines 197-228) -/

/-- One invocation of a registered completion handler: which handler, and the
positional arguments `(status, response, *callback_args)` it received. -/
structure CallbackEvent where
  handler : Nat
  status : CommandStatus
  response : String
  args : List Nat
deriving DecidableEq, Repr

/-- The outcome of `_callback_command`: the table after the entry is retired,
the handler invocations that happened, and the integer returned to the
library. -/
structure CallbackResult where
  table : CommandTable
  events : List CallbackEvent
  ret : Int
deriving DecidableEq, Repr

/-- `"".join([chr(x) for x in cmd_data.m_Rsp[0 : cmd_data.m_RspSize]])`. -/
def responseString (c : MDK_MSL_CMD) : String :=
  String.mk ((c.m_Rsp.take c.m_RspSize).map Char.ofNat)

/-- `_callback_command`.  The key is `cmd_data.m_Callback or 0` (a `NULL`
pointer reads back as `0`).  `pContext` tells whether the auxiliary context
pointer was non-null.  Returns `none` when the key is absent from the table
(the source would raise `KeyError`). -/
def callback_command (table : CommandTable) (cmd_data : MDK_MSL_CMD)
    (pContext : Bool) : Option CallbackResult :=
  let key := cmd_data.m_Callback
  let response := responseString cmd_data
  match tableLookup table key with
  | none => none
  | some entry =>
    let status := if pContext then CommandStatus.SUCCESS else CommandStatus.TIMEOUT
    let table1 := tableInsert table key { entry with status := status }
    let events :=
      match entry.callback with
      | some h => [{ handler := h, status := status, response := response,
                     args := entry.callback_args }]
      | none => ([] : List CallbackEvent)
    some { table := tableErase table1 key, events := events, ret := 0 }

/-! ## Blocking submission (`send_command_blocking`, lines 418-443) -/

/-- Python `int()` conversion of a rational value: truncation toward zero. -/
def pyTrunc (q : ℚ) : Int := if 0 ≤ q then q.floor else q.ceil

/-- The number of iterations of the sleep loop:
`range(0, int(timeout_ms / 1000 / sleep_interval) + 1)`. -/
def numPolls (timeout_ms : Nat) (sleep_interval : ℚ) : Nat :=
  (pyTrunc ((timeout_ms : ℚ) / 1000 / sleep_interval) + 1).toNat

/-- The poll-count formula as the specification words it (for comparison with
`numPolls`, which is derived from the source): `ceil` instead of the
truncating conversion. -/
def specNumPolls (timeout_ms : Nat) (sleep_interval : ℚ) : Nat :=
  (⌈(timeout_ms : ℚ) / 1000 / sleep_interval⌉ + 1).toNat

/-- The sleep-poll loop of `send_command_blocking`.  Each iteration checks the
closure-captured status and breaks when it left `WAIT`; otherwise it sleeps,
during which the callback thread may overwrite the captured state — `env i`
is the state delivered during sleep number `i`, if any.  Returns the number of
iterations that ran together with the final captured state. -/
def pollLoop (env : Nat → Option (CommandStatus × String)) :
    Nat → Nat → CommandStatus × String → Nat × (CommandStatus × String)
  | 0, polls, s => (polls, s)
  | n + 1, polls, s =>
    if s.1 ≠ CommandStatus.WAIT then (polls + 1, s)
    else pollLoop env n (polls + 1) ((env polls).getD s)

/-- The identifier of the stack-local `_callback` closure that
`send_command_blocking` registers. -/
def LOCAL_CALLBACK : Nat := 0

/-- The observable outcome of `send_command_blocking`: the table after
submission, how many poll iterations ran, and the returned status/response
pair. -/
structure BlockingResult where
  table : CommandTable
  polls : Nat
  status : CommandStatus
  response : String
deriving DecidableEq, Repr

/-- `IX3TPC.send_command_blocking`: submits via `send_command` with the local
callback, then polls the captured state starting from `(WAIT, "")`. -/
def send_command_blocking (table : CommandTable) (cmd : String)
    (timeout_ms : Nat) (sleep_interval : ℚ) (pmsc_success : Bool)
    (env : Nat → Option (CommandStatus × String)) :
    Except SendError BlockingResult :=
  match send_command table cmd (some LOCAL_CALLBACK) [] timeout_ms pmsc_success with
  | Except.error e => Except.error e
  | Except.ok r =>
    let out := pollLoop env (numPolls timeout_ms sleep_interval) 0
      (CommandStatus.WAIT, "")
    Except.ok { table := r.table, polls := out.1, status := out.2.1,
                response := out.2.2 }

/-! ## Controller initialisation (`_initialise_portmanager`, `__init__`,
`_login`, `_configure`) -/

/-- The fatal setup errors: `microscope.InitialiseError` and
`microscope.UnsupportedFeatureError`. -/
inductive InitError
  | initialiseError
  | unsupportedFeatureError
deriving DecidableEq, Repr

/-- `IX3TPC._initialise_portmanager`, parameterised by the PortManager
results: the `MSL_PM_Initialize` status code, the `MSL_PM_EnumInterface`
count, and the booleans from `MSL_PM_OpenInterface` /
`MSL_PM_RegisterCallback`. -/
def initialise_portmanager (init_status : Int) (enum_count : Int)
    (open_success : Bool) (register_success : Bool) : Except InitError Unit :=
  if init_status ≠ 0 then Except.error InitError.initialiseError
  else if enum_count = 0 then Except.error InitError.initialiseError
  else if enum_count > 1 then Except.error InitError.unsupportedFeatureError
  else if !open_success then Except.error InitError.initialiseError
  else if !register_success then Except.error InitError.initialiseError
  else Except.ok ()

/-- The `_login` command sequence with its expected responses. -/
def LOGIN_SEQUENCE : List (String × String) :=
  [("L 1,0", "L +"), ("EN6 1,1", "EN6 +"), ("EN5 1", "EN5 +"), ("OPE 0", "OPE +")]

/-- The `_configure` command sequence with its expected responses. -/
def CONFIGURE_SEQUENCE : List (String × String) :=
  [("TPIL 0", "TPIL +")]

/-- Run a command/expected-response sequence the way `_login` and `_configure`
do: send each command via the blocking API (`respond` supplies the resolved
status/response pair), raise `InitialiseError` on the first mismatch.  Also
returns the trace of command bodies that were actually sent. -/
def runSequence (respond : String → CommandStatus × String) :
    List (String × String) → Except InitError Unit × List String
  | [] => (Except.ok (), [])
  | (cmd_msg, cmd_exprsp) :: rest =>
    let sr := respond cmd_msg
    if sr.1 ≠ CommandStatus.SUCCESS ∨ sr.2 ≠ cmd_exprsp then
      (Except.error InitError.initialiseError, [cmd_msg])
    else
      let out := runSequence respond rest
      (out.1, cmd_msg :: out.2)

/-- The `IX3TPC.__init__` sequencing that matters for initialisation errors:
`_initialise_portmanager()` first, and only when it returns normally the
`_login()` and `_configure()` command sequences.  The second component is the
trace of command bodies issued. -/
def controller_init (init_status : Int) (enum_count : Int)
    (open_success : Bool) (register_success : Bool)
    (respond : String → CommandStatus × String) :
    Except InitError Unit × List String :=
  match initialise_portmanager init_status enum_count open_success register_success with
  | Except.error e => (Except.error e, [])
  | Except.ok () =>
    let lg := runSequence respond LOGIN_SEQUENCE
    match lg.1 with
    | Except.error e => (Except.error e, lg.2)
    | Except.ok () =>
      let cf := runSequence respond CONFIGURE_SEQUENCE
      (cf.1, lg.2 ++ cf.2)

/-! ## Light source operations (`_IX3LHLEDC`, lines 483-552) -/

/-- `_IX3LHLEDC._do_enable`: sends `"DSH 0"` through the blocking API
(`send_blocking` maps the command body to the status/response pair the
blocking call returned) and raises `ValueError` unless the result is exactly
`(SUCCESS, "DSH +")`. -/
def do_enable (send_blocking : String → CommandStatus × String) :
    Except Unit Unit :=
  let sr := send_blocking "DSH 0"
  if sr.1 ≠ CommandStatus.SUCCESS ∨ sr.2 ≠ "DSH +" then Except.error ()
  else Except.ok ()

/-- Python `str.split()` tokenisation on runs of separators, producing no
empty tokens (the responses handled here use only the space character). -/
def splitAux : List Char → List Char → List (List Char)
  | [], acc => if acc.isEmpty then [] else [acc.reverse]
  | c :: cs, acc =>
    if c = ' ' then
      if acc.isEmpty then splitAux cs [] else acc.reverse :: splitAux cs []
    else splitAux cs (c :: acc)

/-- Python `s.split()`. -/
def pySplit (s : String) : List String := (splitAux s.data []).map String.mk

/-- Python `s.split()[-1]` (the responses reaching it are guaranteed
non-empty, so the default is never exercised). -/
def lastToken (s : String) : String := (pySplit s).getLastD ""

/-- Python `int(s)` for the non-negative decimal strings that reach it here
(`none` models the `ValueError` on non-digit input). -/
def pyIntOfString (s : String) : Option Nat :=
  if s.data ≠ [] ∧ s.data.all (fun c => c.isDigit) then
    some (s.data.foldl (fun a c => 10 * a + (c.toNat - 48)) 0)
  else none

/-- `_IX3LHLEDC.get_is_on`: sends `"DSH?"`, raises `ValueError` unless the
result is `(SUCCESS, "DSH 0")` or `(SUCCESS, "DSH 1")`, and otherwise returns
`bool(int(response.split()[-1]))`. -/
def get_is_on (send_blocking : String → CommandStatus × String) :
    Except Unit Bool :=
  let sr := send_blocking "DSH?"
  if sr.1 ≠ CommandStatus.SUCCESS ∨ (sr.2 ≠ "DSH 0" ∧ sr.2 ≠ "DSH 1") then
    Except.error ()
  else
    Except.ok (((pyIntOfString (lastToken sr.2)).getD 0) != 0)

/-! ## Concrete fixtures used by witnesses and counterexamples -/

/-- A minimal pending entry. -/
def defaultEntry : CommandTableEntry :=
  { status := CommandStatus.WAIT, data := {} }

/-- A table occupying every key of the pointer-width key space. -/
def fullTable : CommandTable :=
  (List.range KEY_BOUND).map (fun i => (i, defaultEntry))

/-- The completed command record of the response-decoding scenario: declared
response size 7, response bytes `"DSH 0"` followed by two NUL bytes, zero
padding beyond. -/
def dshRecord : MDK_MSL_CMD :=
  { m_RspSize := 7
    m_Rsp := [68, 83, 72, 32, 48, 0, 0] ++ List.replicate 249 0 }

/-- Like `dshRecord` but with different bytes beyond the declared response
size. -/
def dshRecordB : MDK_MSL_CMD :=
  { m_RspSize := 7
    m_Rsp := [68, 83, 72, 32, 48, 0, 0] ++ List.replicate 249 99 }

/-- A one-entry table exercising the callback adapter: the entry under key 3
has registered handler `7` with stored arguments `[5, 9]`. -/
def cbEntry : CommandTableEntry :=
  { status := CommandStatus.WAIT, data := {}, callback := some 7,
    callback_args := [5, 9] }

def cbTable : CommandTable := [(3, cbEntry)]

/-- A completed record correlating back to key 3 of `cbTable`. -/
def cbRecord : MDK_MSL_CMD := { dshRecord with m_Callback := 3 }

/-- A command text that exceeds the record capacity once the two-character
terminator is appended. -/
def LONG_CMD : String := String.mk (List.replicate 255 'a')

/-! ## Helper lemmas -/

theorem KEY_BOUND_pos : 0 < KEY_BOUND :=
  Nat.pos_pow_of_pos POINTER_SIZE_BITS (by decide)

theorem tableKeys_cons (k0 : Nat) (e0 : CommandTableEntry) (rest : CommandTable) :
    tableKeys ((k0, e0) :: rest) = k0 :: tableKeys rest := rfl

theorem mem_tableKeys_cons {k k0 : Nat} {e0 : CommandTableEntry}
    {rest : CommandTable} :
    k ∈ tableKeys ((k0, e0) :: rest) ↔ k = k0 ∨ k ∈ tableKeys rest := by
  rw [tableKeys_cons, List.mem_cons]

theorem tableLookup_tableInsert_self (t : CommandTable) (k : Nat)
    (e : CommandTableEntry) : tableLookup (tableInsert t k e) k = some e := by
  induction t with
  | nil => simp [tableInsert, tableLookup]
  | cons p rest ih =>
    obtain ⟨k0, e0⟩ := p
    by_cases h : k0 = k
    · subst h
      simp [tableInsert, tableLookup]
    · simp [tableInsert, tableLookup, h, ih]

theorem tableLookup_tableInsert_ne (t : CommandTable) (k j : Nat)
    (e : CommandTableEntry) (hjk : j ≠ k) :
    tableLookup (tableInsert t k e) j = tableLookup t j := by
  have hkj : ¬ k = j := fun hc => hjk hc.symm
  induction t with
  | nil => simp [tableInsert, tableLookup, hkj]
  | cons p rest ih =>
    obtain ⟨k0, e0⟩ := p
    by_cases h : k0 = k
    · subst h
      simp [tableInsert, tableLookup, hkj]
    · simp [tableInsert, tableLookup, h, ih]

theorem tableKeys_tableInsert_of_not_mem (t : CommandTable) (k : Nat)
    (e : CommandTableEntry) (h : k ∉ tableKeys t) :
    tableKeys (tableInsert t k e) = tableKeys t ++ [k] := by
  induction t with
  | nil => rfl
  | cons p rest ih =>
    obtain ⟨k0, e0⟩ := p
    rw [mem_tableKeys_cons] at h
    push_neg at h
    obtain ⟨hk0, hrest⟩ := h
    unfold tableInsert
    rw [if_neg (fun hc => hk0 hc.symm), tableKeys_cons, tableKeys_cons, ih hrest]
    rfl

theorem tableKeys_tableInsert_of_mem (t : CommandTable) (k : Nat)
    (e : CommandTableEntry) (h : k ∈ tableKeys t) :
    tableKeys (tableInsert t k e) = tableKeys t := by
  induction t with
  | nil => simp [tableKeys] at h
  | cons p rest ih =>
    obtain ⟨k0, e0⟩ := p
    by_cases hk0 : k0 = k
    · subst hk0
      unfold tableInsert
      rw [if_pos rfl]
      rfl
    · have hrest : k ∈ tableKeys rest := by
        rcases mem_tableKeys_cons.mp h with h1 | h1
        · exact absurd h1 (fun hc => hk0 hc.symm)
        · exact h1
      unfold tableInsert
      rw [if_neg hk0, tableKeys_cons, tableKeys_cons, ih hrest]

theorem tableLookup_tableErase_self (t : CommandTable) (k : Nat) :
    tableLookup (tableErase t k) k = none := by
  induction t with
  | nil => rfl
  | cons p rest ih =>
    obtain ⟨k0, e0⟩ := p
    by_cases h : k0 = k
    · unfold tableErase
      rw [if_pos h]
      exact ih
    · unfold tableErase
      rw [if_neg h]
      unfold tableLookup
      rw [if_neg h]
      exact ih

theorem tableLookup_tableErase_ne (t : CommandTable) (k j : Nat) (hjk : j ≠ k) :
    tableLookup (tableErase t k) j = tableLookup t j := by
  have hkj : ¬ k = j := fun hc => hjk hc.symm
  induction t with
  | nil => rfl
  | cons p rest ih =>
    obtain ⟨k0, e0⟩ := p
    by_cases h : k0 = k
    · subst h
      unfold tableErase
      rw [if_pos rfl, ih,
        show tableLookup ((k0, e0) :: rest) j =
          if k0 = j then some e0 else tableLookup rest j from rfl,
        if_neg hkj]
    · unfold tableErase
      rw [if_neg h]
      unfold tableLookup
      by_cases h0 : k0 = j
      · rw [if_pos h0, if_pos h0]
      · rw [if_neg h0, if_neg h0]
        exact ih

theorem tableLookup_isSome_of_mem (t : CommandTable) (k : Nat)
    (h : k ∈ tableKeys t) : (tableLookup t k).isSome = true := by
  induction t with
  | nil => simp [tableKeys] at h
  | cons p rest ih =>
    obtain ⟨k0, e0⟩ := p
    by_cases hk0 : k0 = k
    · simp [tableLookup, hk0]
    · have hrest : k ∈ tableKeys rest := by
        rcases mem_tableKeys_cons.mp h with h1 | h1
        · exact absurd h1 (fun hc => hk0 hc.symm)
        · exact h1
      simp [tableLookup, hk0, ih hrest]

theorem findFreeKey_eq_some (keys : List Nat) (bound i k : Nat)
    (hik : i ≤ k) (hkb : k < bound) (hfree : k ∉ keys)
    (hocc : ∀ j, i ≤ j → j < k → j ∈ keys) :
    findFreeKey keys bound i = some k := by
  unfold findFreeKey
  have hib : i < bound := Nat.lt_of_le_of_lt hik hkb
  rw [dif_pos hib]
  by_cases hi : i = k
  · subst hi
    rw [if_neg hfree]
  · have hilt : i < k := Nat.lt_of_le_of_ne hik hi
    rw [if_pos (hocc i (Nat.le_refl i) hilt)]
    exact findFreeKey_eq_some keys bound (i + 1) k hilt hkb hfree
      (fun j hj hb => hocc j (Nat.le_of_succ_le hj) hb)
termination_by k - i
decreasing_by omega

theorem findFreeKey_eq_none (keys : List Nat) (bound i : Nat)
    (h : ∀ j, i ≤ j → j < bound → j ∈ keys) :
    findFreeKey keys bound i = none := by
  unfold findFreeKey
  by_cases hib : i < bound
  · rw [dif_pos hib, if_pos (h i (Nat.le_refl i) hib)]
    exact findFreeKey_eq_none keys bound (i + 1)
      (fun j hj hb => h j (Nat.le_of_succ_le hj) hb)
  · rw [dif_neg hib]
termination_by bound - i
decreasing_by omega

/-- When a free key below the bound exists, `allocateKey` returns the smallest
key absent from the table. -/
theorem allocateKey_spec (t : CommandTable)
    (hfree : ∃ i, i < KEY_BOUND ∧ i ∉ tableKeys t) :
    allocateKey t ∉ tableKeys t ∧ allocateKey t < KEY_BOUND ∧
      ∀ j, j < allocateKey t → j ∈ tableKeys t := by
  obtain ⟨i, hiB, hiF⟩ := hfree
  have hP : ∃ j, j ∉ tableKeys t := ⟨i, hiF⟩
  set k := Nat.find hP with hk
  have hkfree : k ∉ tableKeys t := Nat.find_spec hP
  have hki : k ≤ i := Nat.find_min' hP hiF
  have hkB : k < KEY_BOUND := Nat.lt_of_le_of_lt hki hiB
  have hocc : ∀ j, j < k → j ∈ tableKeys t := by
    intro j hj
    have := Nat.find_min hP hj
    exact Decidable.not_not.mp this
  have halloc : allocateKey t = k := by
    unfold allocateKey
    rw [findFreeKey_eq_some (tableKeys t) KEY_BOUND 0 k (Nat.zero_le k) hkB
      hkfree (fun j _ hb => hocc j hb)]
    rfl
  rw [halloc]
  exact ⟨hkfree, hkB, hocc⟩

/-- When every key below the bound is occupied, the scan never breaks and the
key keeps its initial value `0`. -/
theorem allocateKey_of_full (t : CommandTable)
    (hfull : ∀ j, j < KEY_BOUND → j ∈ tableKeys t) : allocateKey t = 0 := by
  unfold allocateKey
  rw [findFreeKey_eq_none (tableKeys t) KEY_BOUND 0 (fun j _ hb => hfull j hb)]
  rfl

theorem commandBytes_length (cmd : String) :
    (commandBytes cmd).length = cmd.length + COMMAND_TERMINATOR.length := by
  unfold commandBytes
  rw [List.length_map]
  show (cmd ++ COMMAND_TERMINATOR).length = _
  exact String.length_append cmd COMMAND_TERMINATOR

/-- `send_command` in the in-limit case, in closed form. -/
theorem send_command_eq_ok (t : CommandTable) (cmd : String) (cb : Option Nat)
    (args : List Nat) (tm : Nat) (ok : Bool)
    (hlen : cmd.length + COMMAND_TERMINATOR.length ≤ 256) :
    send_command t cmd cb args tm ok =
      Except.ok
        { table := tableInsert t (allocateKey t)
            (sentEntry cmd (allocateKey t) cb args tm
              (commandBytes cmd ++
                List.replicate (MAX_COMMAND_SIZE - (commandBytes cmd).length) 0))
          key := allocateKey t
          logged_error := !ok } := by
  have hfba : fixedByteArray MAX_COMMAND_SIZE (commandBytes cmd) =
      some (commandBytes cmd ++
        List.replicate (MAX_COMMAND_SIZE - (commandBytes cmd).length) 0) := by
    unfold fixedByteArray
    rw [if_pos]
    rw [commandBytes_length]
    exact hlen
  unfold send_command
  rw [hfba]

/-- `send_command` in the over-limit case. -/
theorem send_command_eq_error (t : CommandTable) (cmd : String) (cb : Option Nat)
    (args : List Nat) (tm : Nat) (ok : Bool)
    (hlen : 256 < cmd.length + COMMAND_TERMINATOR.length) :
    send_command t cmd cb args tm ok = Except.error SendError.payloadTooLarge := by
  have hfba : fixedByteArray MAX_COMMAND_SIZE (commandBytes cmd) = none := by
    unfold fixedByteArray
    rw [if_neg]
    rw [commandBytes_length]
    show ¬ cmd.length + COMMAND_TERMINATOR.length ≤ 256
    omega
  unfold send_command
  rw [hfba]

theorem pollLoop_none (n polls : Nat) :
    pollLoop (fun _ => none) n polls (CommandStatus.WAIT, "") =
      (polls + n, (CommandStatus.WAIT, "")) := by
  induction n generalizing polls with
  | zero => simp [pollLoop]
  | succ m ih =>
    rw [pollLoop]
    simp only [ne_eq, not_true_eq_false, if_false, Option.getD_none]
    rw [ih (polls + 1)]
    congr 1
    omega

theorem pyTrunc_of_nonneg {q : ℚ} (h : 0 ≤ q) : pyTrunc q = ⌊q⌋ := by
  unfold pyTrunc
  rw [if_pos h, Rat.floor_def', Rat.floor_def]

theorem numPolls_10000 : numPolls 10000 (1 / 5) = 51 := by
  unfold numPolls
  rw [pyTrunc_of_nonneg (by norm_num)]
  rw [show ((10000 : Nat) : ℚ) / 1000 / (1 / 5) = (50 : ℚ) from by norm_num]
  rw [show ⌊(50 : ℚ)⌋ = 50 from Int.floor_eq_iff.mpr (by norm_num)]
  rfl

theorem numPolls_1125 : numPolls 1125 (1 / 4) = 5 := by
  unfold numPolls
  rw [pyTrunc_of_nonneg (by norm_num)]
  rw [show ((1125 : Nat) : ℚ) / 1000 / (1 / 4) = (9 : ℚ) / 2 from by norm_num]
  rw [show ⌊(9 : ℚ) / 2⌋ = 4 from Int.floor_eq_iff.mpr (by norm_num)]
  rfl

theorem specNumPolls_1125 : specNumPolls 1125 (1 / 4) = 6 := by
  unfold specNumPolls
  rw [show ((1125 : Nat) : ℚ) / 1000 / (1 / 4) = (9 : ℚ) / 2 from by norm_num]
  rw [show ⌈(9 : ℚ) / 2⌉ = 5 from Int.ceil_eq_iff.mpr (by norm_num)]
  rfl

theorem tableKeys_fullTable : tableKeys fullTable = List.range KEY_BOUND := by
  unfold tableKeys fullTable
  rw [List.map_map]
  exact List.map_id _

theorem fullTable_full : ∀ j, j < KEY_BOUND → j ∈ tableKeys fullTable := by
  intro j hj
  rw [tableKeys_fullTable]
  exact List.mem_range.mpr hj

/-- When submission fails for a full key space, the scan key defaults to 0 and
the existing entry under key 0 is replaced; no error of any kind is raised. -/
theorem send_command_overwrites_key_zero (t : CommandTable) (cmd : String)
    (cb : Option Nat) (args : List Nat) (tm : Nat) (ok : Bool)
    (hlen : cmd.length + COMMAND_TERMINATOR.length ≤ 256)
    (hfull : ∀ j, j < KEY_BOUND → j ∈ tableKeys t) :
    ∃ r, send_command t cmd cb args tm ok = Except.ok r ∧ r.key = 0 ∧
      tableKeys r.table = tableKeys t := by
  have h0 : allocateKey t = 0 := allocateKey_of_full t hfull
  refine ⟨_, send_command_eq_ok t cmd cb args tm ok hlen, h0, ?_⟩
  show tableKeys (tableInsert t (allocateKey t) _) = tableKeys t
  rw [h0]
  exact tableKeys_tableInsert_of_mem t 0 _ (hfull 0 KEY_BOUND_pos)

theorem pyBool_DSH0 : ((pyIntOfString (lastToken "DSH 0")).getD 0 != 0) = false := by
  decide

theorem pyBool_DSH1 : ((pyIntOfString (lastToken "DSH 1")).getD 0 != 0) = true := by
  decide

/-! ## Claim theorems -/

/-- C1: for every `send_command` call on a table with a free key in the
pointer-width key space (and an in-limit command text), the allocated key is
the smallest non-negative integer not currently present in the command
table; immediately after submission exactly one new table entry exists under
that key (the other bindings are untouched), the key was not present before
the call, and the keys of in-flight commands remain pairwise distinct. -/
theorem C1_send_command_allocates_smallest_fresh_key (t : CommandTable)
    (cmd : String) (cb : Option Nat) (args : List Nat) (tm : Nat) (ok : Bool)
    (hlen : cmd.length + COMMAND_TERMINATOR.length ≤ 256)
    (hfree : ∃ i, i < KEY_BOUND ∧ i ∉ tableKeys t)
    (hnodup : (tableKeys t).Nodup) :
    ∃ r, send_command t cmd cb args tm ok = Except.ok r ∧
      r.key ∉ tableKeys t ∧
      (∀ j, j < r.key → j ∈ tableKeys t) ∧
      (∃ e, tableLookup r.table r.key = some e ∧ e.status = CommandStatus.WAIT) ∧
      (∀ j, j ≠ r.key → tableLookup r.table j = tableLookup t j) ∧
      tableKeys r.table = tableKeys t ++ [r.key] ∧
      (tableKeys r.table).Nodup := by
  obtain ⟨hfreeK, hKB, hocc⟩ := allocateKey_spec t hfree
  refine ⟨_, send_command_eq_ok t cmd cb args tm ok hlen, hfreeK, hocc,
    ⟨_, tableLookup_tableInsert_self t (allocateKey t) _, rfl⟩, ?_, ?_, ?_⟩
  · intro j hj
    exact tableLookup_tableInsert_ne t (allocateKey t) j _ hj
  · exact tableKeys_tableInsert_of_not_mem t (allocateKey t) _ hfreeK
  · show (tableKeys (tableInsert t (allocateKey t) _)).Nodup
    rw [tableKeys_tableInsert_of_not_mem t (allocateKey t) _ hfreeK]
    exact hnodup.append (List.nodup_singleton _)
      (fun x hx hx2 => hfreeK ((List.mem_singleton.mp hx2) ▸ hx))

/-- Witness for C1 at the empty table with command `"DSH 0"`. -/
theorem C1_witness :
    ("DSH 0".length + COMMAND_TERMINATOR.length ≤ 256) ∧
    (∃ i, i < KEY_BOUND ∧ i ∉ tableKeys ([] : CommandTable)) ∧
    (tableKeys ([] : CommandTable)).Nodup ∧
    (∃ r, send_command [] "DSH 0" none [] 10000 true = Except.ok r ∧
      r.key ∉ tableKeys ([] : CommandTable) ∧
      (∀ j, j < r.key → j ∈ tableKeys ([] : CommandTable)) ∧
      (∃ e, tableLookup r.table r.key = some e ∧ e.status = CommandStatus.WAIT) ∧
      (∀ j, j ≠ r.key → tableLookup r.table j = tableLookup [] j) ∧
      tableKeys r.table = tableKeys ([] : CommandTable) ++ [r.key] ∧
      (tableKeys r.table).Nodup) :=
  ⟨by decide, ⟨0, KEY_BOUND_pos, by decide⟩, by decide,
    C1_send_command_allocates_smallest_fresh_key [] "DSH 0" none [] 10000 true
      (by decide) ⟨0, KEY_BOUND_pos, by decide⟩ (by decide)⟩

/-- C2: processing a completion for a key present in the table resolves the
status to `SUCCESS` exactly when the auxiliary `pContext` signal is non-null
and to `TIMEOUT` otherwise, invokes the registered completion handler (if
there is one) exactly once with the resolved status, the decoded response
and the stored callback arguments, and afterwards the entry for the key is
absent from the table (whether or not a handler was registered), with every
other binding untouched. -/
theorem C2_callback_resolves_and_retires (t : CommandTable) (c : MDK_MSL_CMD)
    (pCtx : Bool) (e : CommandTableEntry)
    (hmem : tableLookup t c.m_Callback = some e) :
    ∃ r, callback_command t c pCtx = some r ∧
      r.ret = 0 ∧
      tableLookup r.table c.m_Callback = none ∧
      (∀ j, j ≠ c.m_Callback → tableLookup r.table j = tableLookup t j) ∧
      r.events = (match e.callback with
        | some h =>
          [CallbackEvent.mk h
            (if pCtx then CommandStatus.SUCCESS else CommandStatus.TIMEOUT)
            (responseString c) e.callback_args]
        | none => []) := by
  simp only [callback_command]
  rw [hmem]
  refine ⟨_, rfl, rfl, tableLookup_tableErase_self _ _, ?_, rfl⟩
  intro j hj
  show tableLookup (tableErase (tableInsert t c.m_Callback _) c.m_Callback) j =
    tableLookup t j
  rw [tableLookup_tableErase_ne _ _ _ hj, tableLookup_tableInsert_ne _ _ _ _ hj]

/-- Witness for C2 on the one-entry table `cbTable` with a registered
handler and a non-null context signal. -/
theorem C2_witness :
    tableLookup cbTable cbRecord.m_Callback = some cbEntry ∧
    (∃ r, callback_command cbTable cbRecord true = some r ∧
      r.ret = 0 ∧
      tableLookup r.table cbRecord.m_Callback = none ∧
      (∀ j, j ≠ cbRecord.m_Callback →
        tableLookup r.table j = tableLookup cbTable j) ∧
      r.events = (match cbEntry.callback with
        | some h =>
          [CallbackEvent.mk h
            (if (true : Bool) then CommandStatus.SUCCESS else CommandStatus.TIMEOUT)
            (responseString cbRecord) cbEntry.callback_args]
        | none => [])) :=
  ⟨rfl, C2_callback_resolves_and_retires cbTable cbRecord true cbEntry rfl⟩

/-- C3 (amended): a blocking send whose command never receives a transport
callback performs exactly `int(timeout_ms / 1000 / sleep_interval) + 1`
polls — a truncating conversion, not a ceiling — before giving up, and then
returns the unresolved `WAIT` status together with the empty string, without
raising.  For `timeout_ms = 10000`, `sleep_interval = 0.2` this is 51 polls
(there the truncating and ceiling formulas agree because the quotient is the
integer 50). -/
theorem C3_blocking_timeout_poll_count (t : CommandTable) (cmd : String)
    (tm : Nat) (si : ℚ) (ok : Bool)
    (hlen : cmd.length + COMMAND_TERMINATOR.length ≤ 256) :
    (∃ r, send_command_blocking t cmd tm si ok (fun _ => none) = Except.ok r ∧
      r.polls = numPolls tm si ∧ r.status = CommandStatus.WAIT ∧
      r.response = "") ∧
    numPolls tm si = (pyTrunc ((tm : ℚ) / 1000 / si) + 1).toNat ∧
    numPolls 10000 (1 / 5) = 51 := by
  refine ⟨?_, rfl, numPolls_10000⟩
  unfold send_command_blocking
  rw [send_command_eq_ok t cmd (some LOCAL_CALLBACK) [] tm ok hlen,
    pollLoop_none, Nat.zero_add]
  exact ⟨_, rfl, rfl, rfl, rfl⟩

/-- Witness for C3 at the empty table, command `"DSH 0"`, the default
timeout 10000 ms and poll interval 0.2 s. -/
theorem C3_witness :
    ("DSH 0".length + COMMAND_TERMINATOR.length ≤ 256) ∧
    ((∃ r, send_command_blocking [] "DSH 0" 10000 (1 / 5) true (fun _ => none) =
        Except.ok r ∧
      r.polls = numPolls 10000 (1 / 5) ∧ r.status = CommandStatus.WAIT ∧
      r.response = "") ∧
    numPolls 10000 (1 / 5) =
      (pyTrunc (((10000 : Nat) : ℚ) / 1000 / (1 / 5)) + 1).toNat ∧
    numPolls 10000 (1 / 5) = 51) :=
  ⟨by decide,
    C3_blocking_timeout_poll_count [] "DSH 0" 10000 (1 / 5) true (by decide)⟩

/-- C3 counterexample: at `timeout_ms = 1125` and `sleep_interval = 0.25`
(both exactly representable), the code polls `int(4.5) + 1 = 5` times while
the ceiling formula of the claim demands `ceil(4.5) + 1 = 6`. -/
theorem C3_counterexample_ceil_formula :
    (send_command_blocking [] "DSH 0" 1125 (1 / 4) true
        (fun _ => none)).toOption.map (fun r => (r.polls, r.status, r.response)) =
      some (5, CommandStatus.WAIT, "") ∧
    specNumPolls 1125 (1 / 4) = 6 := by
  constructor
  · unfold send_command_blocking
    rw [send_command_eq_ok [] "DSH 0" (some LOCAL_CALLBACK) [] 1125 true
        (by decide), numPolls_1125, pollLoop_none]
    rfl
  · exact specNumPolls_1125

/-- C4: a send whose command text plus the two-character terminator exceeds
the 256-byte record capacity fails with the payload-too-large error; for a
command text within the limit, the terminator is appended to the command
bytes placed in the command record, and the declared command size counts
it. -/
theorem C4_payload_limit (t : CommandTable) (cmd : String) (cb : Option Nat)
    (args : List Nat) (tm : Nat) (ok : Bool) :
    (256 < cmd.length + COMMAND_TERMINATOR.length →
      send_command t cmd cb args tm ok = Except.error SendError.payloadTooLarge) ∧
    (cmd.length + COMMAND_TERMINATOR.length ≤ 256 →
      ∃ r e, send_command t cmd cb args tm ok = Except.ok r ∧
        tableLookup r.table r.key = some e ∧
        e.data.m_CmdSize = cmd.length + COMMAND_TERMINATOR.length ∧
        e.data.m_Cmd.take (cmd.length + COMMAND_TERMINATOR.length) =
          commandBytes cmd ∧
        commandBytes cmd =
          cmd.data.map (fun ch => ch.toNat % 256) ++ [13, 10]) := by
  constructor
  · intro hlen
    exact send_command_eq_error t cmd cb args tm ok hlen
  · intro hlen
    refine ⟨_, _, send_command_eq_ok t cmd cb args tm ok hlen,
      tableLookup_tableInsert_self _ _ _, rfl, ?_, ?_⟩
    · show (commandBytes cmd ++
          List.replicate (MAX_COMMAND_SIZE - (commandBytes cmd).length) 0).take
          (cmd.length + COMMAND_TERMINATOR.length) = commandBytes cmd
      rw [← commandBytes_length]
      exact List.take_left _ _
    · unfold commandBytes
      rw [String.data_append, List.map_append]
      rfl

set_option maxRecDepth 4000 in
/-- Witness for C4: the over-limit branch at a 255-character command and the
in-limit branch at `"DSH 0"`. -/
theorem C4_witness :
    (256 < LONG_CMD.length + COMMAND_TERMINATOR.length ∧
      send_command [] LONG_CMD none [] 10000 true =
        Except.error SendError.payloadTooLarge) ∧
    ("DSH 0".length + COMMAND_TERMINATOR.length ≤ 256 ∧
      ∃ r e, send_command [] "DSH 0" none [] 10000 true = Except.ok r ∧
        tableLookup r.table r.key = some e ∧
        e.data.m_CmdSize = "DSH 0".length + COMMAND_TERMINATOR.length ∧
        e.data.m_Cmd.take ("DSH 0".length + COMMAND_TERMINATOR.length) =
          commandBytes "DSH 0" ∧
        commandBytes "DSH 0" =
          "DSH 0".data.map (fun ch => ch.toNat % 256) ++ [13, 10]) :=
  ⟨⟨by decide, (C4_payload_limit [] LONG_CMD none [] 10000 true).1 (by decide)⟩,
   ⟨by decide, (C4_payload_limit [] "DSH 0" none [] 10000 true).2 (by decide)⟩⟩

/-- C5 (amended): the response decoding of a record with declared size 7 and
response bytes `"DSH 0"` followed by two NUL bytes yields the 7-character
text `"DSH 0\x00\x00"` — NUL bytes inside the declared size are kept, not
stripped — and in general the decoding ignores bytes beyond the declared
response size. -/
theorem C5_response_decoding :
    responseString dshRecord = "DSH 0\x00\x00" ∧
    ∀ c1 c2 : MDK_MSL_CMD, c1.m_RspSize = c2.m_RspSize →
      c1.m_Rsp.take c1.m_RspSize = c2.m_Rsp.take c2.m_RspSize →
      responseString c1 = responseString c2 := by
  refine ⟨by decide, ?_⟩
  intro c1 c2 _hsz hpre
  unfold responseString
  rw [hpre]

/-- Witness for C5: two records agreeing inside the declared size and
differing beyond it decode identically. -/
theorem C5_witness :
    dshRecord.m_RspSize = dshRecordB.m_RspSize ∧
    dshRecord.m_Rsp.take dshRecord.m_RspSize =
      dshRecordB.m_Rsp.take dshRecordB.m_RspSize ∧
    responseString dshRecord = responseString dshRecordB :=
  ⟨rfl, by decide,
    C5_response_decoding.2 dshRecord dshRecordB rfl (by decide)⟩

/-- C5 counterexample: the decoding of the record of the claim does not
yield `"DSH 0"` (it yields the 7-character string with the two NUL bytes
kept). -/
theorem C5_counterexample_nul_bytes_kept :
    ¬ responseString dshRecord = "DSH 0" := by decide

/-- C6: when the transport submit operation reports failure, `send_command`
returns normally without raising, the failure is logged, no retry is
attempted (the resulting table is exactly the one a successful submission
would have produced — the record was handed to the transport once), and the
entry created under the allocated key remains in the table with status
`WAIT`. -/
theorem C6_submit_failure_logged_not_raised (t : CommandTable) (cmd : String)
    (cb : Option Nat) (args : List Nat) (tm : Nat)
    (hlen : cmd.length + COMMAND_TERMINATOR.length ≤ 256) :
    ∃ rf rs, send_command t cmd cb args tm false = Except.ok rf ∧
      send_command t cmd cb args tm true = Except.ok rs ∧
      rf.logged_error = true ∧ rs.logged_error = false ∧
      rf.table = rs.table ∧ rf.key = rs.key ∧
      (∃ e, tableLookup rf.table rf.key = some e ∧
        e.status = CommandStatus.WAIT) :=
  ⟨_, _, send_command_eq_ok t cmd cb args tm false hlen,
    send_command_eq_ok t cmd cb args tm true hlen, rfl, rfl, rfl, rfl,
    ⟨_, tableLookup_tableInsert_self _ _ _, rfl⟩⟩

/-- Witness for C6 at the empty table with command `"DSH 0"`. -/
theorem C6_witness :
    ("DSH 0".length + COMMAND_TERMINATOR.length ≤ 256) ∧
    (∃ rf rs, send_command [] "DSH 0" none [] 10000 false = Except.ok rf ∧
      send_command [] "DSH 0" none [] 10000 true = Except.ok rs ∧
      rf.logged_error = true ∧ rs.logged_error = false ∧
      rf.table = rs.table ∧ rf.key = rs.key ∧
      (∃ e, tableLookup rf.table rf.key = some e ∧
        e.status = CommandStatus.WAIT)) :=
  ⟨by decide,
    C6_submit_failure_logged_not_raised [] "DSH 0" none [] 10000 (by decide)⟩

/-- C7 (amended): when every key of the pointer-width key space is occupied,
`send_command` does not fail with a resource-exhaustion error (or any
other): the key scan never breaks, so the key keeps its initial value 0 and
the call returns normally, replacing the existing entry under key 0 — the
key set of the table is unchanged, so no new entry appears. -/
theorem C7_full_key_space_reuses_key_zero (t : CommandTable) (cmd : String)
    (cb : Option Nat) (args : List Nat) (tm : Nat) (ok : Bool)
    (hlen : cmd.length + COMMAND_TERMINATOR.length ≤ 256)
    (hfull : ∀ j, j < KEY_BOUND → j ∈ tableKeys t) :
    ∃ r, send_command t cmd cb args tm ok = Except.ok r ∧ r.key = 0 ∧
      tableKeys r.table = tableKeys t :=
  send_command_overwrites_key_zero t cmd cb args tm ok hlen hfull

/-- Witness for C7 on the concrete full table. -/
theorem C7_witness :
    ("L 1,0".length + COMMAND_TERMINATOR.length ≤ 256) ∧
    (∃ r, send_command fullTable "L 1,0" none [] 10000 true = Except.ok r ∧
      r.key = 0 ∧ tableKeys r.table = tableKeys fullTable) :=
  ⟨by decide,
    C7_full_key_space_reuses_key_zero fullTable "L 1,0" none [] 10000 true
      (by decide) fullTable_full⟩

/-- C7 counterexample: on the concrete table occupying the whole key space,
`send_command` returns `Except.ok` — it does not fail with any error — and
reuses key 0, which is already occupied. -/
theorem C7_counterexample_no_failure :
    (send_command fullTable "L 1,0" none [] 10000 true).toOption.map
      SendResult.key = some 0 ∧
    0 ∈ tableKeys fullTable ∧ (tableLookup fullTable 0).isSome = true := by
  obtain ⟨r, hr, hk, -⟩ := send_command_overwrites_key_zero fullTable "L 1,0"
    none [] 10000 true (by decide) fullTable_full
  refine ⟨?_, fullTable_full 0 KEY_BOUND_pos,
    tableLookup_isSome_of_mem _ _ (fullTable_full 0 KEY_BOUND_pos)⟩
  rw [hr]
  show some r.key = some 0
  rw [hk]

/-- C8: during controller initialisation with the library initialised
(status 0), an interface count of 0 raises `InitialiseError` and a count of
2 or more raises `UnsupportedFeatureError`; in both cases the error is
raised before any login command is issued (the issued-command trace is
empty). -/
theorem C8_interface_count_errors (open_success register_success : Bool)
    (respond : String → CommandStatus × String) (c : Int) :
    controller_init 0 0 open_success register_success respond =
      (Except.error InitError.initialiseError, []) ∧
    (2 ≤ c → controller_init 0 c open_success register_success respond =
      (Except.error InitError.unsupportedFeatureError, [])) := by
  constructor
  · rfl
  · intro hc
    unfold controller_init initialise_portmanager
    rw [if_neg (show ¬ ((0 : Int) ≠ 0) by simp),
      if_neg (show ¬ (c = 0) by omega),
      if_pos (show c > 1 by omega)]

/-- Witness for C8 at interface counts 0 and 2. -/
theorem C8_witness :
    controller_init 0 0 true true (fun _ => (CommandStatus.WAIT, "")) =
      (Except.error InitError.initialiseError, []) ∧
    controller_init 0 2 true true (fun _ => (CommandStatus.WAIT, "")) =
      (Except.error InitError.unsupportedFeatureError, []) :=
  ⟨(C8_interface_count_errors true true (fun _ => (CommandStatus.WAIT, "")) 2).1,
   (C8_interface_count_errors true true (fun _ => (CommandStatus.WAIT, "")) 2).2
     (by decide)⟩

/-- C9: the light-source enable operation returns without error exactly when
the blocking send of `"DSH 0"` returned status `SUCCESS` together with the
exact response `"DSH +"`; for every other status/response pair it raises
(`ValueError`). -/
theorem C9_do_enable_iff (send_blocking : String → CommandStatus × String) :
    (do_enable send_blocking = Except.ok () ↔
      send_blocking "DSH 0" = (CommandStatus.SUCCESS, "DSH +")) ∧
    (do_enable send_blocking = Except.error () ↔
      send_blocking "DSH 0" ≠ (CommandStatus.SUCCESS, "DSH +")) := by
  rcases hsr : send_blocking "DSH 0" with ⟨st, resp⟩
  unfold do_enable
  rw [hsr]
  by_cases h1 : st = CommandStatus.SUCCESS
  · subst h1
    by_cases h2 : resp = "DSH +"
    · subst h2
      simp
    · rw [if_pos (Or.inr h2)]
      simp [Prod.ext_iff, h2]
  · rw [if_pos (Or.inl h1)]
    simp [Prod.ext_iff, h1]

/-- Witness for C9 at a blocking send that answers `(SUCCESS, "DSH +")`. -/
theorem C9_witness :
    (do_enable (fun _ => (CommandStatus.SUCCESS, "DSH +")) = Except.ok () ↔
      (fun _ => (CommandStatus.SUCCESS, "DSH +")) "DSH 0" =
        (CommandStatus.SUCCESS, "DSH +")) ∧
    (do_enable (fun _ => (CommandStatus.SUCCESS, "DSH +")) = Except.error () ↔
      (fun _ => (CommandStatus.SUCCESS, "DSH +")) "DSH 0" ≠
        (CommandStatus.SUCCESS, "DSH +")) :=
  C9_do_enable_iff (fun _ => (CommandStatus.SUCCESS, "DSH +"))

/-- C10: `get_is_on` returns `false` exactly when the blocking `"DSH?"`
query resolved to `(SUCCESS, "DSH 0")`, returns `true` exactly when it
resolved to `(SUCCESS, "DSH 1")`, and raises `ValueError` for every other
status/response pair. -/
theorem C10_get_is_on_cases (send_blocking : String → CommandStatus × String) :
    (get_is_on send_blocking = Except.ok false ↔
      send_blocking "DSH?" = (CommandStatus.SUCCESS, "DSH 0")) ∧
    (get_is_on send_blocking = Except.ok true ↔
      send_blocking "DSH?" = (CommandStatus.SUCCESS, "DSH 1")) ∧
    (get_is_on send_blocking = Except.error () ↔
      (send_blocking "DSH?" ≠ (CommandStatus.SUCCESS, "DSH 0") ∧
       send_blocking "DSH?" ≠ (CommandStatus.SUCCESS, "DSH 1"))) := by
  rcases hsr : send_blocking "DSH?" with ⟨st, resp⟩
  unfold get_is_on
  rw [hsr]
  by_cases h1 : st = CommandStatus.SUCCESS
  · subst h1
    by_cases h2 : resp = "DSH 0"
    · subst h2
      rw [if_neg (by simp), pyBool_DSH0]
      simp
    · by_cases h3 : resp = "DSH 1"
      · subst h3
        rw [if_neg (by simp), pyBool_DSH1]
        simp
      · rw [if_pos (Or.inr ⟨h2, h3⟩)]
        simp [Prod.ext_iff, h2, h3]
  · rw [if_pos (Or.inl h1)]
    simp [Prod.ext_iff, h1]

/-- Witness for C10 at a blocking query that answers `(SUCCESS, "DSH 1")`. -/
theorem C10_witness :
    (get_is_on (fun _ => (CommandStatus.SUCCESS, "DSH 1")) = Except.ok false ↔
      (fun _ => (CommandStatus.SUCCESS, "DSH 1")) "DSH?" =
        (CommandStatus.SUCCESS, "DSH 0")) ∧
    (get_is_on (fun _ => (CommandStatus.SUCCESS, "DSH 1")) = Except.ok true ↔
      (fun _ => (CommandStatus.SUCCESS, "DSH 1")) "DSH?" =
        (CommandStatus.SUCCESS, "DSH 1")) ∧
    (get_is_on (fun _ => (CommandStatus.SUCCESS, "DSH 1")) = Except.error () ↔
      ((fun _ => (CommandStatus.SUCCESS, "DSH 1")) "DSH?" ≠
        (CommandStatus.SUCCESS, "DSH 0") ∧
       (fun _ => (CommandStatus.SUCCESS, "DSH 1")) "DSH?" ≠
        (CommandStatus.SUCCESS, "DSH 1"))) :=
  C10_get_is_on_cases (fun _ => (CommandStatus.SUCCESS, "DSH 1"))
